import Mathlib

set_option maxRecDepth 8000

/-!
Verification of the motion-choreography and coordinate-transform engine of a
liquid-handling robot (Python sources: `src/software/src/deck.py`,
`src/software/src/labware.py`, `src/software/src/robot.py`, `src/software/gui.py`).

Modelling conventions:
* All machine coordinates, volumes and calibration constants are modelled as
  exact rationals (`ℚ`).  Every numeric fact the claims mention (e.g.
  `50.0 * (6/100) = 3.0`, `5.0 + 3.0 = 8.0`) is exact in IEEE binary64 as well,
  so the rational model agrees with the Python `float` computation at every
  input used here.
* The G-code lines written to the serial port are modelled structurally by the
  `Cmd` type rather than as formatted strings: `move_to(x=..,y=..,z=..,u=..)`
  becomes `Cmd.move` with one `Option ℚ` per axis plus the optional feedrate,
  `G90`/`G91` become `Cmd.setAbsolute`/`Cmd.setRelative`, `G28` becomes
  `Cmd.home` with the list of axes it homes (a bare `G28` homes every axis),
  and `G4 P<ms>` becomes `Cmd.dwellMs`.
* A high-level operation is modelled as a `Trace`: the list of commands it
  writes to the firmware, in order, together with `none` on success or the
  exception it raises (`some err`) after the listed commands were already
  sent.  Python exceptions (`ValueError`, `KeyError`, `RuntimeError`, ...)
  are mapped to the constructors of `Err`.
* These traces model runs in which the firmware never answers with an error
  line (each `send_gcode` either sees `ok` or times out; both return
  normally, see `drain_until_ok_or_timeout`).  Firmware error lines and the
  acknowledgement protocol itself are modelled separately (`FwResp`,
  `runCmds`, `drain_until_ok_or_timeout`).
-/

namespace LHR

/-- Axis letters of the firmware protocol (X/Y/Z and plunger U). -/
inductive Axis where
  | X | Y | Z | U
deriving DecidableEq

/-- One G-code command written to the firmware, structurally.
`move x y z u feed` is a `G1` carrying exactly the axis words whose `Option`
is `some` (mirroring how `move_to` / `move_relative` build the `parts` list in
`robot.py`). -/
inductive Cmd where
  | setAbsolute
  | setRelative
  | home (axes : List Axis)
  | move (x y z u feed : Option ℚ)
  | dwellMs (ms : ℤ)
deriving DecidableEq

/-- Exceptions raised by the Python layer, by site. -/
inductive Err where
  | unknownSlot            -- `deck.slots[slot_id]` KeyError
  | incompleteLabware      -- missing tip / scrape Z settings (RuntimeError)
  | invalidEdge            -- "edge must be 'left' or 'right'." (ValueError)
  | baseBelowMin           -- "u_base below syringe u_min." (ValueError)
  | calibrationRange       -- "U travel exceeds syringe u_max" (ValueError)
  | unknownSyringe         -- KeyError in SYRINGES lookup
  | noSyringeSelected      -- RuntimeError in `_get_syringe`
  | wellParse              -- IndexError / int() ValueError in `_well_rc`
  | addressOutOfRange      -- "Row/Column out of range" (ValueError in `_well_rc`)
  | missingAddress         -- current-XY mode without explicit heights (ValueError)
  | firmwareError          -- an error line was read back (RuntimeError)
  | missingParam (key : String)  -- KeyError on a step parameter mapping
  | unknownStepType        -- "Unknown step type" (ValueError in the GUI executor)
deriving DecidableEq

/-- The commands an operation wrote to the firmware, in order, and the
exception (if any) it raised after writing them. -/
structure Trace where
  cmds : List Cmd
  err : Option Err
deriving DecidableEq

/-- View of `Except` as a sum, to derive decidable equality on results. -/
def exceptToSum {ε α : Type} : Except ε α → ε ⊕ α
  | .error e => .inl e
  | .ok a => .inr a

instance {ε α : Type} [DecidableEq ε] [DecidableEq α] : DecidableEq (Except ε α) :=
  fun a b =>
    decidable_of_iff (exceptToSum a = exceptToSum b)
      (by cases a <;> cases b <;> simp [exceptToSum])

/-- `True` for commands that make the machine move (G1 / G28); mode switches
and dwells are not motion. -/
def isMotion : Cmd → Bool
  | .move _ _ _ _ _ => true
  | .home _ => true
  | _ => false

/-- `move_to(z=z, feedrate=f)` -/
def mvZ (z f : ℚ) : Cmd := .move none none (some z) none (some f)

/-- `move_to(x=x, y=y, feedrate=f)` -/
def mvXY (x y f : ℚ) : Cmd := .move (some x) (some y) none none (some f)

/-- `move_to(u=u, feedrate=f)` -/
def mvU (u f : ℚ) : Cmd := .move none none none (some u) (some f)

/-- Python `int()` truncation toward zero on a rational. -/
def ratTrunc (q : ℚ) : ℤ := q.num / (q.den : ℤ)

/-- `dwell(seconds)` emits `G4 P{int(seconds*1000)}`. -/
def dwellCmd (seconds : ℚ) : Cmd := .dwellMs (ratTrunc (seconds * 1000))

/-! ## deck.py -/

/-- `DeckSlot`: a single SBS slot with its deck-space center. -/
structure DeckSlot where
  slot_id : String
  x_deck : ℚ
  y_deck : ℚ
deriving DecidableEq

/-- `Deck`: origin offset plus the slot dictionary (lookup may fail with
`KeyError`, modelled by `Option`). -/
structure Deck where
  origin_x : ℚ
  origin_y : ℚ
  slots : String → Option DeckSlot

/-- `Deck.deck_to_machine`: pure translation by the origin offset. -/
def Deck.deck_to_machine (d : Deck) (x_deck y_deck : ℚ) : ℚ × ℚ :=
  (d.origin_x + x_deck, d.origin_y + y_deck)

/-- `Deck.slot_center_machine`. -/
def Deck.slot_center_machine (d : Deck) (slot_id : String) : Option (ℚ × ℚ) :=
  (d.slots slot_id).map fun s => d.deck_to_machine s.x_deck s.y_deck

/-- The fixed `DECK_LAYOUT` of `deck.py`: origin `(-8, -5)` and the six-slot
3×2 layout. -/
def deckDefault : Deck where
  origin_x := -8
  origin_y := -5
  slots := fun id =>
    if id = "1" then some ⟨"1", (909/10), 70⟩
    else if id = "2" then some ⟨"2", (2421/10), 70⟩
    else if id = "3" then some ⟨"3", (909/10), 170⟩
    else if id = "4" then some ⟨"4", (2421/10), 170⟩
    else if id = "5" then some ⟨"5", (909/10), 270⟩
    else if id = "6" then some ⟨"6", (2421/10), 270⟩
    else none

/-! ## labware.py -/

/-- `SyringeType`: linear volume ↔ U-travel calibration. -/
structure SyringeType where
  name : String
  max_volume_ul : ℚ
  u_per_ul : ℚ
  u_base : ℚ
  u_min : Option ℚ := none
  u_max : Option ℚ := none
deriving DecidableEq

/-- `Syringe_1ml` from `labware.py`. -/
def Syringe_1ml : SyringeType :=
  { name := "1ml", max_volume_ul := 1000, u_per_ul := (6/100), u_base := 5,
    u_min := some 0, u_max := some 65 }

/-- The `SYRINGES` registry (only `"1ml"` is registered). -/
def SYRINGES : String → Option SyringeType := fun n =>
  if n = "1ml" then some Syringe_1ml else none

/-- `LabwareType`: grid geometry plus the named Z heights. -/
structure LabwareType where
  name : String
  rows : ℕ
  cols : ℕ
  pitch_x : ℚ
  pitch_y : ℚ
  offset_x : ℚ
  offset_y : ℚ
  safe_z : ℚ
  bottom_z : ℚ
  aspirate_z : Option ℚ := none
  dispense_z : Option ℚ := none
  tip_touch_z : Option ℚ := none
  tip_press_z : Option ℚ := none
  tip_full_z : Option ℚ := none
  scrape_z : Option ℚ := none
deriving DecidableEq

/-- Python's `a or b` on an optional float: `b` is used when `a` is `None`
*or* when `a` is the falsy float `0.0`. -/
def pyOr (a : Option ℚ) (b : ℚ) : ℚ :=
  match a with
  | none => b
  | some x => if x = 0 then b else x

def LABWARE_TIPRACK_96 : LabwareType :=
  { name := "tiprack_96", rows := 8, cols := 12,
    pitch_x := 9, pitch_y := 9, offset_x := (-497/10), offset_y := (-315/10),
    safe_z := 100, bottom_z := 0,
    tip_touch_z := some 170, tip_press_z := some 172, tip_full_z := some 176,
    scrape_z := some 152 }

def LABWARE_TIPWASTE_BOX : LabwareType :=
  { name := "tip_waste_box", rows := 1, cols := 1,
    pitch_x := 0, pitch_y := 0, offset_x := 0, offset_y := 0,
    safe_z := 100, bottom_z := 0,
    scrape_z := some 170 }

def LABWARE_48WELL_10MM : LabwareType :=
  { name := "48well_10mm", rows := 6, cols := 8,
    pitch_x := (1247/100), pitch_y := (1247/100), offset_x := (-4388/100), offset_y := (-3204/100),
    safe_z := 158, bottom_z := 170 }

def LABWARE_BEAKER_1WELL : LabwareType :=
  { name := "beaker_1well", rows := 1, cols := 1,
    pitch_x := 0, pitch_y := 0, offset_x := 0, offset_y := 0,
    safe_z := 100, bottom_z := 150,
    aspirate_z := some 150, dispense_z := some 150 }

/-- `int(s)` restricted to nonempty all-digit strings (the claims only
quantify over well names whose tail is a plain decimal number; Python's
`int` also accepts signs/whitespace/underscores, which no claim exercises). -/
def parseNatDigits (ds : List Char) : Option ℕ :=
  if !ds.isEmpty && ds.all Char.isDigit then
    some (ds.foldl (fun a d => 10 * a + (d.toNat - 48)) 0)
  else none

/-- `LabwareInstance`: a `LabwareType` bound to a slot on a deck. -/
structure LabwareInstance where
  type : LabwareType
  slot : DeckSlot
  label : String
  deck : Deck

/-- `LabwareInstance._well_rc`: `'A1' → (row, col)` after `strip().upper()`;
`row = ord(first) - ord('A')`, `col = int(rest) - 1`, both bound-checked
(the source raises `ValueError "Row/Column out of range"`, modelled as
`Err.addressOutOfRange`). -/
def LabwareInstance.well_rc (inst : LabwareInstance) (well : String) :
    Except Err (ℤ × ℤ) :=
  match (well.trim.toUpper).data with
  | [] => .error .wellParse
  | rowChar :: rest =>
    match parseNatDigits rest with
    | none => .error .wellParse
    | some n =>
      let col : ℤ := (n : ℤ) - 1
      let row : ℤ := (rowChar.toNat : ℤ) - 65
      if 0 ≤ row ∧ row < (inst.type.rows : ℤ) then
        if 0 ≤ col ∧ col < (inst.type.cols : ℤ) then .ok (row, col)
        else .error .addressOutOfRange
      else .error .addressOutOfRange

/-- `LabwareInstance.well_position_deck`. -/
def LabwareInstance.well_position_deck (inst : LabwareInstance) (well : String) :
    Except Err (ℚ × ℚ) :=
  match inst.well_rc well with
  | .error e => .error e
  | .ok (r, c) =>
      .ok (inst.slot.x_deck + inst.type.offset_x + (c : ℚ) * inst.type.pitch_x,
           inst.slot.y_deck + inst.type.offset_y + (r : ℚ) * inst.type.pitch_y)

/-- `LabwareInstance.well_position_machine`. -/
def LabwareInstance.well_position_machine (inst : LabwareInstance) (well : String) :
    Except Err (ℚ × ℚ) :=
  match inst.well_position_deck well with
  | .error e => .error e
  | .ok (x, y) => .ok (inst.deck.deck_to_machine x y)

/-! ## robot.py — syringe resolution and motion primitives -/

/-- `Robot._get_syringe`: an explicit name is looked up in `SYRINGES`
(`KeyError` → `unknownSyringe`); otherwise the currently selected syringe is
used (`RuntimeError` → `noSyringeSelected` when none is selected). -/
def get_syringe (syringe_name : Option String) (current : Option SyringeType) :
    Except Err SyringeType :=
  match syringe_name with
  | some n =>
    match SYRINGES n with
    | some s => .ok s
    | none => .error .unknownSyringe
  | none =>
    match current with
    | some s => .ok s
    | none => .error .noSyringeSelected

/-- `Robot.move_relative`: `G91`, one combined `G1` carrying exactly the
non-zero deltas (mirroring the `if dx != 0.0: parts.append(...)` chain),
then `G90`. -/
def move_relative_cmds (dx dy dz du : ℚ) (feedrate : Option ℚ) : List Cmd :=
  [Cmd.setRelative,
   Cmd.move (if dx = 0 then none else some dx) (if dy = 0 then none else some dy)
            (if dz = 0 then none else some dz) (if du = 0 then none else some du)
            feedrate,
   Cmd.setAbsolute]

/-- `Robot.home_all`: a bare `G28` (which homes every axis) followed by the
fixed plunger lift `G1 U5 F200`. -/
def home_all_cmds : List Cmd :=
  [Cmd.home [Axis.X, Axis.Y, Axis.Z, Axis.U],
   Cmd.move none none none (some 5) (some 200)]

/-! ## robot.py — liquid-handling choreography as traces -/

/-- `Robot.pick_up_tip(deck, slot_id, well, n_cycles=2)`. -/
def pick_up_tip (deck : Deck) (slot_id well : String) (n_cycles : ℕ := 2) :
    Trace :=
  match deck.slots slot_id with
  | none => ⟨[], some .unknownSlot⟩
  | some slot =>
    let t := LABWARE_TIPRACK_96
    let tiprack : LabwareInstance := ⟨t, slot, "tiprack_slot" ++ slot_id, deck⟩
    match t.tip_touch_z, t.tip_press_z, t.tip_full_z with
    | some z_touch, some z_press, some z_full =>
      let z_safe := t.safe_z
      -- set_absolute_mode, rise to safe height; then the well is resolved
      -- (an address error aborts after these two commands were sent)
      let pre := [Cmd.setAbsolute, mvZ z_safe 750]
      match tiprack.well_position_machine well with
      | .error e => ⟨pre, some e⟩
      | .ok (x, y) =>
        ⟨pre ++ [mvXY x y 7500, mvZ z_touch 750, dwellCmd (1/5)]
             ++ (List.replicate n_cycles
                  [mvZ z_press 600, dwellCmd (1/5), mvZ z_touch 600, dwellCmd (1/5)]).flatten
             ++ [mvZ z_full 750, dwellCmd (1/5), mvZ z_press 750, mvZ z_safe 600],
         none⟩
    | _, _, _ => ⟨[], some .incompleteLabware⟩

/-- `Robot.drop_tip_scrape(deck, slot_id, edge="left", slot_half_width=64.0,
extra_scrape=20.0)`.  Note the source validates `edge` only at step 4,
*after* the safe-height, slot-center and scrape-height moves were sent. -/
def drop_tip_scrape (deck : Deck) (slot_id : String) (edge : String := "left")
    (slot_half_width : ℚ := 64) (extra_scrape : ℚ := 20) : Trace :=
  match deck.slots slot_id with
  | none => ⟨[], some .unknownSlot⟩
  | some slot =>
    let t := LABWARE_TIPWASTE_BOX
    match t.scrape_z with
    | none => ⟨[], some .incompleteLabware⟩
    | some z_scrape =>
      let z_safe := t.safe_z
      -- `slot_center_machine(slot_id)` re-reads the same immutable dict entry
      let (cx, cy) := deck.deck_to_machine slot.x_deck slot.y_deck
      let pre := [Cmd.setAbsolute, mvZ z_safe 600, mvXY cx cy 7500, mvZ z_scrape 750]
      if edge = "left" then
        ⟨pre ++ [mvXY (cx - slot_half_width - extra_scrape) cy 2000, mvZ z_safe 600], none⟩
      else if edge = "right" then
        ⟨pre ++ [mvXY (cx + slot_half_width + extra_scrape) cy 2000, mvZ z_safe 600], none⟩
      else ⟨pre, some .invalidEdge⟩

/-- `Robot.transfer_volume`.  The calibration-range checks run right after
resolving the syringe, before any slot lookup and before any command; both
plates are hard-coded `LABWARE_48WELL_10MM`. -/
def transfer_volume (current : Option SyringeType) (deck : Deck)
    (src_slot src_well dst_slot dst_well : String) (volume_ul : ℚ)
    (syringe : Option String := some "10ml")
    (feed_xy : ℚ := 3000) (feed_z_down : ℚ := 200) (feed_z_up : ℚ := 300)
    (feed_u : ℚ := 200) : Trace :=
  match get_syringe syringe current with
  | .error e => ⟨[], some e⟩
  | .ok syr =>
    let dU := volume_ul * syr.u_per_ul
    let u_base := syr.u_base
    let u_asp := u_base + dU
    if (match syr.u_min with | some m => decide (u_base < m) | none => false) then
      ⟨[], some .baseBelowMin⟩
    else if (match syr.u_max with | some m => decide (m < u_asp) | none => false) then
      ⟨[], some .calibrationRange⟩
    else
      match deck.slots src_slot with
      | none => ⟨[], some .unknownSlot⟩
      | some sslot =>
        match deck.slots dst_slot with
        | none => ⟨[], some .unknownSlot⟩
        | some dslot =>
          let src_plate : LabwareInstance :=
            ⟨LABWARE_48WELL_10MM, sslot, "plate_src_slot" ++ src_slot, deck⟩
          let dst_plate : LabwareInstance :=
            ⟨LABWARE_48WELL_10MM, dslot, "plate_dst_slot" ++ dst_slot, deck⟩
          let z_safe_src := src_plate.type.safe_z
          let z_asp := pyOr src_plate.type.aspirate_z src_plate.type.bottom_z
          let z_safe_dst := dst_plate.type.safe_z
          let z_disp := pyOr dst_plate.type.dispense_z dst_plate.type.bottom_z
          let pre := [Cmd.setAbsolute, mvU u_base feed_u, mvZ z_safe_src feed_z_up]
          match src_plate.well_position_machine src_well with
          | .error e => ⟨pre, some e⟩
          | .ok (x_src, y_src) =>
            let pre2 := pre ++
              [mvXY x_src y_src feed_xy, mvZ z_asp feed_z_down, mvU u_asp feed_u,
               mvZ z_safe_src feed_z_up, mvZ z_safe_dst feed_z_up]
            match dst_plate.well_position_machine dst_well with
            | .error e => ⟨pre2, some e⟩
            | .ok (x_dst, y_dst) =>
              ⟨pre2 ++
                [mvXY x_dst y_dst feed_xy, mvZ z_disp feed_z_down, mvU u_base feed_u,
                 mvZ z_safe_dst feed_z_up], none⟩

/-- `Robot.aspirate`.  Addressed mode needs `deck`, `slot_id` and `well` all
present; otherwise the current-XY mode needs both explicit heights.  No
calibration-range check is performed anywhere in this method. -/
def aspirate (current : Option SyringeType) (volume_ul : ℚ)
    (syringe : Option String := none) (deck : Option Deck := none)
    (slot_id : Option String := none)
    (labware_type : LabwareType := LABWARE_48WELL_10MM)
    (well : Option String := none)
    (z_safe : Option ℚ := none) (z_aspirate : Option ℚ := none)
    (feed_xy : ℚ := 7500) (feed_z_down : ℚ := 600) (feed_z_up : ℚ := 750)
    (feed_u : ℚ := 200) : Trace :=
  match get_syringe syringe current with
  | .error e => ⟨[], some e⟩
  | .ok syr =>
    let dU := volume_ul * syr.u_per_ul
    match deck, slot_id, well with
    | some dk, some sid, some w =>
      match dk.slots sid with
      | none => ⟨[Cmd.setAbsolute], some .unknownSlot⟩
      | some slot =>
        let plate : LabwareInstance := ⟨labware_type, slot, "asp_plate_slot" ++ sid, dk⟩
        let t := plate.type
        let z_safe_local := t.safe_z
        let z_asp_local := pyOr t.aspirate_z t.bottom_z
        if labware_type = LABWARE_BEAKER_1WELL then
          -- beaker: lift Z to the beaker-safe height before lateral travel
          match plate.well_position_machine w with
          | .error e => ⟨[Cmd.setAbsolute, mvZ z_safe_local feed_z_up], some e⟩
          | .ok (x, y) =>
            ⟨[Cmd.setAbsolute, mvZ z_safe_local feed_z_up, mvXY x y feed_xy,
              mvZ z_asp_local feed_z_down]
             ++ move_relative_cmds 0 0 0 dU (some feed_u)
             ++ [mvZ z_safe_local feed_z_up], none⟩
        else
          -- plate: lateral travel first (the caller is assumed to sit at a
          -- collision-clear height already), then adjust Z
          match plate.well_position_machine w with
          | .error e => ⟨[Cmd.setAbsolute], some e⟩
          | .ok (x, y) =>
            ⟨[Cmd.setAbsolute, mvXY x y feed_xy, mvZ z_asp_local feed_z_down]
             ++ move_relative_cmds 0 0 0 dU (some feed_u)
             ++ [mvZ z_safe_local feed_z_up], none⟩
    | _, _, _ =>
      match z_safe, z_aspirate with
      | some zs, some za =>
        ⟨[Cmd.setAbsolute, mvZ zs feed_z_up, mvZ za feed_z_down]
         ++ move_relative_cmds 0 0 0 dU (some feed_u)
         ++ [mvZ zs feed_z_up], none⟩
      | _, _ => ⟨[Cmd.setAbsolute], some .missingAddress⟩

/-- `Robot.dispense` (mirror of `aspirate` with the plunger pushed back,
`move_relative(du=-dU)`, and the dispense-height fallback). -/
def dispense (current : Option SyringeType) (volume_ul : ℚ)
    (syringe : Option String := none) (deck : Option Deck := none)
    (slot_id : Option String := none)
    (labware_type : LabwareType := LABWARE_48WELL_10MM)
    (well : Option String := none)
    (z_safe : Option ℚ := none) (z_dispense : Option ℚ := none)
    (feed_xy : ℚ := 7500) (feed_z_down : ℚ := 600) (feed_z_up : ℚ := 750)
    (feed_u : ℚ := 200) : Trace :=
  match get_syringe syringe current with
  | .error e => ⟨[], some e⟩
  | .ok syr =>
    let dU := volume_ul * syr.u_per_ul
    match deck, slot_id, well with
    | some dk, some sid, some w =>
      match dk.slots sid with
      | none => ⟨[Cmd.setAbsolute], some .unknownSlot⟩
      | some slot =>
        let plate : LabwareInstance := ⟨labware_type, slot, "disp_plate_slot" ++ sid, dk⟩
        let t := plate.type
        let z_safe_local := t.safe_z
        let z_disp_local := pyOr t.dispense_z t.bottom_z
        if labware_type = LABWARE_BEAKER_1WELL then
          match plate.well_position_machine w with
          | .error e => ⟨[Cmd.setAbsolute, mvZ z_safe_local feed_z_up], some e⟩
          | .ok (x, y) =>
            ⟨[Cmd.setAbsolute, mvZ z_safe_local feed_z_up, mvXY x y feed_xy,
              mvZ z_disp_local feed_z_down]
             ++ move_relative_cmds 0 0 0 (-dU) (some feed_u)
             ++ [mvZ z_safe_local feed_z_up], none⟩
        else
          match plate.well_position_machine w with
          | .error e => ⟨[Cmd.setAbsolute], some e⟩
          | .ok (x, y) =>
            ⟨[Cmd.setAbsolute, mvXY x y feed_xy, mvZ z_disp_local feed_z_down]
             ++ move_relative_cmds 0 0 0 (-dU) (some feed_u)
             ++ [mvZ z_safe_local feed_z_up], none⟩
    | _, _, _ =>
      match z_safe, z_dispense with
      | some zs, some zd =>
        ⟨[Cmd.setAbsolute, mvZ zs feed_z_up, mvZ zd feed_z_down]
         ++ move_relative_cmds 0 0 0 (-dU) (some feed_u)
         ++ [mvZ zs feed_z_up], none⟩
      | _, _ => ⟨[Cmd.setAbsolute], some .missingAddress⟩

/-- `Robot.aspirate_from_beaker`: aspirate at the slot's single well `"A1"`
with the beaker geometry. -/
def aspirate_from_beaker (current : Option SyringeType) (deck : Deck)
    (slot_id : String) (volume_ul : ℚ) (syringe : Option String := none)
    (feed_xy : ℚ := 7500) (feed_z_down : ℚ := 600) (feed_z_up : ℚ := 750)
    (feed_u : ℚ := 200) : Trace :=
  aspirate current volume_ul syringe (some deck) (some slot_id)
    LABWARE_BEAKER_1WELL (some "A1") none none feed_xy feed_z_down feed_z_up feed_u

/-- `Robot.dispense_to_beaker`: dispense at the slot's single well `"A1"`
with the beaker geometry. -/
def dispense_to_beaker (current : Option SyringeType) (deck : Deck)
    (slot_id : String) (volume_ul : ℚ) (syringe : Option String := none)
    (feed_xy : ℚ := 7500) (feed_z_down : ℚ := 600) (feed_z_up : ℚ := 750)
    (feed_u : ℚ := 200) : Trace :=
  dispense current volume_ul syringe (some deck) (some slot_id)
    LABWARE_BEAKER_1WELL (some "A1") none none feed_xy feed_z_down feed_z_up feed_u

/-! ## robot.py — line protocol session -/

/-- `str.startswith`: `startsWithSeq pat s` is true when `s` begins with
`pat`. -/
def startsWithSeq : List Char → List Char → Bool
  | [], _ => true
  | _ :: _, [] => false
  | p :: ps, c :: cs => p == c && startsWithSeq ps cs

/-- Python's `pat in s` substring test on character lists. -/
def containsSeq (pat : List Char) : List Char → Bool
  | [] => pat.isEmpty
  | c :: cs => startsWithSeq pat (c :: cs) || containsSeq pat cs

/-- The error test of `_drain_until_ok_or_timeout`:
`line.startswith("Error") or "error" in line.lower()`. -/
def isErrorLine (l : String) : Bool :=
  startsWithSeq "Error".data l.data || containsSeq "error".data l.toLower.data

/-- The success test of `_drain_until_ok_or_timeout`:
`line.strip().lower() == "ok"`. -/
def isOkLine (l : String) : Bool :=
  l.trim.toLower == "ok"

/-- Outcome of one acknowledgement wait. -/
inductive DrainResult where
  | okAck                  -- an 'ok' line was seen: return normally
  | fwError (line : String)  -- an error line was seen: raise RuntimeError
  | timedOutWarned         -- timeout elapsed: print a warning, return normally
deriving DecidableEq

/-- `Robot._drain_until_ok_or_timeout`, with the serial stream modelled as
the list of lines read before the (positive) overall timeout elapses; the
end of the list is the moment the timeout fires.  Empty strings are the
empty reads `_read_line` produces and are skipped (`if line:`). -/
def drain_until_ok_or_timeout : List String → DrainResult
  | [] => .timedOutWarned
  | l :: ls =>
    if l ≠ "" then
      if isErrorLine l then .fwError l
      else if isOkLine l then .okAck
      else drain_until_ok_or_timeout ls
    else drain_until_ok_or_timeout ls

/-- `Robot.send_gcode` with `wait_ok=True`: raises `RuntimeError` exactly on
the `fwError` outcome; both `okAck` and `timedOutWarned` return normally. -/
def send_gcode_result (lines : List String) : Except String Unit :=
  match drain_until_ok_or_timeout lines with
  | .fwError l => .error ("Firmware error: " ++ l)
  | .okAck => .ok ()
  | .timedOutWarned => .ok ()

/-- The claim's failure condition, stated independently of the scan: some
read line carries the error marker and no success line precedes it. -/
def ErrorBeforeOk (lines : List String) : Prop :=
  ∃ i : ℕ, ∃ hi : i < lines.length, isErrorLine lines[i] = true ∧
    ∀ l ∈ lines.take i, isOkLine l = false

/-- Per-command firmware behaviour while a choreography sequence runs:
either the command is acknowledged, or the wait for it times out, or an
error line arrives. -/
inductive FwResp where
  | ack | timeout | errorLine
deriving DecidableEq

/-- Run a planned command sequence against per-command firmware responses
(`resp i` answers the `i`-th command).  `ack` and `timeout` both continue
(the optimistic-timeout policy); an error line raises after the command was
already written. -/
def runCmds (resp : ℕ → FwResp) : ℕ → List Cmd → Trace
  | _, [] => ⟨[], none⟩
  | i, c :: cs =>
    if resp i = .errorLine then ⟨[c], some .firmwareError⟩
    else
      let t := runCmds resp (i + 1) cs
      ⟨c :: t.cmds, t.err⟩

/-! ## Machine-level semantics of the command stream -/

/-- Firmware positioning mode (G90 / G91). -/
inductive Mode where
  | absolute | relative
deriving DecidableEq

/-- Machine state: positioning mode and the four axis positions. -/
structure MachState where
  mode : Mode
  x : ℚ
  y : ℚ
  z : ℚ
  u : ℚ
deriving DecidableEq

/-- Marlin-style semantics of one command: `G90`/`G91` set the mode, `G28`
moves the listed axes to their home (zero) position, `G1` sets the carried
axes to the target (absolute mode) or offsets them by it (relative mode),
`G4` only waits. -/
def execCmd (s : MachState) : Cmd → MachState
  | .setAbsolute => { s with mode := .absolute }
  | .setRelative => { s with mode := .relative }
  | .home axes =>
      { s with x := if axes.contains .X then 0 else s.x,
               y := if axes.contains .Y then 0 else s.y,
               z := if axes.contains .Z then 0 else s.z,
               u := if axes.contains .U then 0 else s.u }
  | .move mx my mz mu _ =>
      match s.mode with
      | .absolute => { s with x := mx.getD s.x, y := my.getD s.y,
                              z := mz.getD s.z, u := mu.getD s.u }
      | .relative => { s with x := s.x + mx.getD 0, y := s.y + my.getD 0,
                              z := s.z + mz.getD 0, u := s.u + mu.getD 0 }
  | .dwellMs _ => s

/-- Execute a command list left to right. -/
def execList (s : MachState) (cs : List Cmd) : MachState := cs.foldl execCmd s

/-! ## The choreography safety-ordering invariant -/

/-- Scan of a command list for the §4.5 safety ordering, tracking the last
commanded Z (`zcur`, `none` before any Z was commanded) and whether some XY
target was already commanded (`xyDone`).  Z grows downward, so "at or above
the safe height" is `z ≤ zsafe`.  Each move carrying an X or Y word must be
issued while the commanded Z is known and at or above `zsafe`; each move
commanding a Z strictly below `zsafe` (numerically `> zsafe`) must come
after some XY target was commanded. -/
def safeOrderingAux (zsafe : ℚ) (zcur : Option ℚ) (xyDone : Bool) :
    List Cmd → Bool
  | [] => true
  | Cmd.move mx my mz _ _ :: cs =>
      ((!(mx.isSome || my.isSome)) ||
        (match zcur with | some zc => decide (zc ≤ zsafe) | none => false))
      && (match mz with
          | some zt => (!decide (zsafe < zt)) || xyDone
          | none => true)
      && safeOrderingAux zsafe
           (match mz with | some zt => some zt | none => zcur)
           (xyDone || (mx.isSome || my.isSome)) cs
  | _ :: cs => safeOrderingAux zsafe zcur xyDone cs

/-- The safety-ordering invariant for a whole emitted sequence. -/
def safeOrdering (zsafe : ℚ) (cs : List Cmd) : Bool :=
  safeOrderingAux zsafe none false cs

/-! ## gui.py — protocol step executor -/

/-- The parameter mapping of one protocol step, restricted to the keys the
dispatcher reads (`params.get(k)` / `params[k]`). -/
structure StepParams where
  slot : Option String := none
  well : Option String := none
  edge : Option String := none
  syringe : Option String := none
  src_slot : Option String := none
  src_well : Option String := none
  dst_slot : Option String := none
  dst_well : Option String := none
  volume_ul : Option ℚ := none
  seconds : Option ℚ := none
deriving DecidableEq

/-- The robot-API call a step dispatches to, with the exact arguments the
GUI passes (`labware` is the `labware_type` handed to
`Robot.aspirate`/`Robot.dispense`). -/
inductive RobotCall where
  | homeCall (axes : String)
  | pickTip (slot well : String)
  | dropTip (slot edge : String)
  | transferCall (src_slot src_well dst_slot dst_well : String)
      (volume : ℚ) (syringe : String)
  | aspirateCall (volume : ℚ) (syringe : String) (slot well : String)
      (labware : LabwareType)
  | dispenseCall (volume : ℚ) (syringe : String) (slot well : String)
      (labware : LabwareType)
  | dwellCall (seconds : ℚ)
deriving DecidableEq

/-- `LiquidHandlingGUI._run_single_step`: closed dispatch on the step kind.
`default_syringe` models `self.var_syringe.get()`.  For `aspirate` and
`dispense`: a missing `slot` is rejected; `slot`+`well` calls the robot with
the default 48-well plate type; `slot` without `well` goes through
`aspirate_from_beaker`/`dispense_to_beaker`, which fix the well to `"A1"`
and the labware type to `LABWARE_BEAKER_1WELL`. -/
def run_single_step (default_syringe : String) (step_type : String)
    (p : StepParams) : Except Err RobotCall :=
  if step_type = "home_xyz" then .ok (.homeCall "XYZ")
  else if step_type = "pick_tip" then
    match p.slot, p.well with
    | some s, some w => .ok (.pickTip s w)
    | none, _ => .error (.missingParam "slot")
    | _, none => .error (.missingParam "well")
  else if step_type = "drop_tip" then
    match p.slot with
    | some s => .ok (.dropTip s (p.edge.getD "left"))
    | none => .error (.missingParam "slot")
  else if step_type = "transfer" then
    match p.src_slot, p.src_well, p.dst_slot, p.dst_well, p.volume_ul with
    | some a, some b, some c, some d, some v =>
        .ok (.transferCall a b c d v (p.syringe.getD default_syringe))
    | _, _, _, _, _ => .error (.missingParam "transfer")
  else if step_type = "aspirate" then
    let syringe_name := p.syringe.getD default_syringe
    match p.volume_ul with
    | none => .error (.missingParam "volume_ul")
    | some v =>
      match p.slot with
      | none => .error (.missingParam "slot")
      | some s =>
        match p.well with
        | some w => .ok (.aspirateCall v syringe_name s w LABWARE_48WELL_10MM)
        | none => .ok (.aspirateCall v syringe_name s "A1" LABWARE_BEAKER_1WELL)
  else if step_type = "dispense" then
    let syringe_name := p.syringe.getD default_syringe
    match p.volume_ul with
    | none => .error (.missingParam "volume_ul")
    | some v =>
      match p.slot with
      | none => .error (.missingParam "slot")
      | some s =>
        match p.well with
        | some w => .ok (.dispenseCall v syringe_name s w LABWARE_48WELL_10MM)
        | none => .ok (.dispenseCall v syringe_name s "A1" LABWARE_BEAKER_1WELL)
  else if step_type = "dwell" then .ok (.dwellCall (p.seconds.getD 1))
  else .error .unknownStepType

end LHR

namespace LHR

/-- `Robot.move_relative` run against per-command firmware responses. -/
def move_relative_run (resp : ℕ → FwResp) (dx dy dz du : ℚ)
    (feedrate : Option ℚ) : Trace :=
  runCmds resp 0 (move_relative_cmds dx dy dz du feedrate)

/-- A labware type whose aspirate height is *set* but set to `0.0` — a falsy
float, so `t.aspirate_z or t.bottom_z` in the source selects `bottom_z`. -/
def LT_ASPZERO : LabwareType :=
  { name := "aspz0", rows := 1, cols := 1,
    pitch_x := 0, pitch_y := 0, offset_x := 0, offset_y := 0,
    safe_z := 100, bottom_z := 170, aspirate_z := some 0 }

/-! ## Helper lemmas: stepping the safety-ordering scan -/

theorem safeAux_setAbs (zsafe : ℚ) (zc : Option ℚ) (b : Bool) (cs : List Cmd) :
    safeOrderingAux zsafe zc b (Cmd.setAbsolute :: cs) =
      safeOrderingAux zsafe zc b cs := rfl

theorem safeAux_setRel (zsafe : ℚ) (zc : Option ℚ) (b : Bool) (cs : List Cmd) :
    safeOrderingAux zsafe zc b (Cmd.setRelative :: cs) =
      safeOrderingAux zsafe zc b cs := rfl

theorem safeAux_dwell (zsafe : ℚ) (zc : Option ℚ) (b : Bool) (ms : ℤ)
    (cs : List Cmd) :
    safeOrderingAux zsafe zc b (Cmd.dwellMs ms :: cs) =
      safeOrderingAux zsafe zc b cs := rfl

theorem safeAux_mvZ (zsafe z f : ℚ) (zc : Option ℚ) (b : Bool) (cs : List Cmd) :
    safeOrderingAux zsafe zc b (mvZ z f :: cs) =
      (((!decide (zsafe < z)) || b) && safeOrderingAux zsafe (some z) b cs) := by
  simp [safeOrderingAux, mvZ]

theorem safeAux_mvXY (zsafe x y f zc : ℚ) (b : Bool) (cs : List Cmd) :
    safeOrderingAux zsafe (some zc) b (mvXY x y f :: cs) =
      (decide (zc ≤ zsafe) && safeOrderingAux zsafe (some zc) true cs) := by
  simp [safeOrderingAux, mvXY]

theorem safeAux_mvXY_none (zsafe x y f : ℚ) (b : Bool) (cs : List Cmd) :
    safeOrderingAux zsafe none b (mvXY x y f :: cs) = false := by
  simp [safeOrderingAux, mvXY]

theorem safeAux_mvU (zsafe u f : ℚ) (zc : Option ℚ) (b : Bool) (cs : List Cmd) :
    safeOrderingAux zsafe zc b (mvU u f :: cs) =
      safeOrderingAux zsafe zc b cs := by
  simp [safeOrderingAux, mvU]

theorem safeAux_moveUOnly (zsafe : ℚ) (mu f : Option ℚ) (zc : Option ℚ)
    (b : Bool) (cs : List Cmd) :
    safeOrderingAux zsafe zc b (Cmd.move none none none mu f :: cs) =
      safeOrderingAux zsafe zc b cs := by
  simp [safeOrderingAux]

theorem safeAux_nil (zsafe : ℚ) (zc : Option ℚ) (b : Bool) :
    safeOrderingAux zsafe zc b [] = true := rfl

theorem safeAux_dwellCmd (zsafe s : ℚ) (zc : Option ℚ) (b : Bool)
    (cs : List Cmd) :
    safeOrderingAux zsafe zc b (dwellCmd s :: cs) =
      safeOrderingAux zsafe zc b cs := rfl

/-- The press/touch oscillation of `pick_up_tip` keeps the scan state at
(last-commanded Z = touch height 170, XY already commanded). -/
theorem safeAux_tipCycles (s : ℚ) (n : ℕ) (cs : List Cmd) :
    safeOrderingAux 100 (some 170) true
      ((List.replicate n
          [mvZ 172 600, dwellCmd s, mvZ 170 600, dwellCmd s]).flatten ++ cs)
      = safeOrderingAux 100 (some 170) true cs := by
  induction n with
  | zero => simp
  | succ n ih =>
    have h172 : decide ((100 : ℚ) < 172) = true := by with_unfolding_all rfl
    have h170 : decide ((100 : ℚ) < 170) = true := by with_unfolding_all rfl
    rw [List.replicate_succ, List.flatten_cons, List.append_assoc]
    simp only [List.cons_append, List.nil_append, safeAux_mvZ, safeAux_dwellCmd,
      h172, h170, Bool.not_true, Bool.false_or, Bool.or_true,
      Bool.true_and]
    exact ih

end LHR

namespace LHR

/-- Claim C4: `transfer_volume` from slot 4 well A1 to slot 4 well B3 at
50 µL with the 1 ml syringe computes plunger travel `3.0` and aspirate
target `8.0`, and issues (after the initial `G90`) exactly the eleven moves
plunger→5, source safe Z, source well XY, source aspirate Z, plunger→8,
source safe Z, destination safe Z, destination well XY, destination
dispense Z, plunger→5, destination safe Z, in that order. -/
theorem C4_transfer_scenario :
    50 * Syringe_1ml.u_per_ul = 3 ∧
    Syringe_1ml.u_base + 50 * Syringe_1ml.u_per_ul = 8 ∧
    transfer_volume none deckDefault "4" "A1" "4" "B3" 50 (some "1ml") =
      ⟨[Cmd.setAbsolute,
        mvU 5 200,
        mvZ 158 300,
        mvXY (19022/100) (13296/100) 3000,
        mvZ 170 200,
        mvU 8 200,
        mvZ 158 300,
        mvZ 158 300,
        mvXY (21516/100) (14543/100) 3000,
        mvZ 170 200,
        mvU 5 200,
        mvZ 158 300],
       none⟩ :=
  ⟨by with_unfolding_all rfl, by with_unfolding_all rfl, by with_unfolding_all rfl⟩

/-- Claim C2 (counterexample): `drop_tip_scrape` on slot 1, edge `"left"`, is
a choreography operation on a valid input that succeeds, yet its emitted
sequence violates the safety ordering: the lateral scrape stroke is issued
while the commanded Z is the scrape height 170, below the waste box's safe
height 100 (Z grows downward). -/
theorem C2_counterexample :
    (drop_tip_scrape deckDefault "1" "left").err = none ∧
    safeOrdering LABWARE_TIPWASTE_BOX.safe_z
      (drop_tip_scrape deckDefault "1" "left").cmds = false :=
  ⟨by with_unfolding_all rfl, by with_unfolding_all rfl⟩

/-- Claim C3 (counterexample): `drop_tip_scrape` with the invalid edge
`"up"` does raise the invalid-edge error, but only after three motion
commands (safe-height Z, lateral to slot center, descent to scrape height)
were already sent — not before any motion. -/
theorem C3_counterexample :
    (drop_tip_scrape deckDefault "2" "up").err = some .invalidEdge ∧
    ((drop_tip_scrape deckDefault "2" "up").cmds.filter isMotion).length = 3 :=
  ⟨by with_unfolding_all rfl, by with_unfolding_all rfl⟩

end LHR

namespace LHR

/-- Claim C1 (amended): when `u_base + volume×u_per_ul` exceeds the
calibration's `u_max` (and `u_base` is not below `u_min`, which is checked
first), `transfer_volume` fails with the calibration-range error before
sending any command; `aspirate` and `dispense` perform no such validation —
the overfull 10000 µL request on the 1 ml syringe runs to completion with a
full motion sequence and no error. -/
theorem C1_amended (syr : SyringeType) (m volume_ul : ℚ) (deck : Deck)
    (src_slot src_well dst_slot dst_well : String) (fxy fzd fzu fu : ℚ)
    (hmax : syr.u_max = some m)
    (hmin : ∀ mn, syr.u_min = some mn → mn ≤ syr.u_base)
    (hover : m < syr.u_base + volume_ul * syr.u_per_ul) :
    transfer_volume (some syr) deck src_slot src_well dst_slot dst_well
        volume_ul none fxy fzd fzu fu = ⟨[], some .calibrationRange⟩ ∧
    (aspirate (some Syringe_1ml) 10000 none (some deckDefault) (some "4")
        LABWARE_48WELL_10MM (some "A1")).err = none ∧
    ((aspirate (some Syringe_1ml) 10000 none (some deckDefault) (some "4")
        LABWARE_48WELL_10MM (some "A1")).cmds.filter isMotion).length = 4 ∧
    (dispense (some Syringe_1ml) 10000 none (some deckDefault) (some "4")
        LABWARE_48WELL_10MM (some "A1")).err = none ∧
    ((dispense (some Syringe_1ml) 10000 none (some deckDefault) (some "4")
        LABWARE_48WELL_10MM (some "A1")).cmds.filter isMotion).length = 4 ∧
    Syringe_1ml.u_max = some 65 ∧
    (65 : ℚ) < Syringe_1ml.u_base + 10000 * Syringe_1ml.u_per_ul := by
  refine ⟨?_, by with_unfolding_all rfl, by with_unfolding_all rfl,
    by with_unfolding_all rfl, by with_unfolding_all rfl,
    by with_unfolding_all rfl, by norm_num [Syringe_1ml]⟩
  have h1 : (match syr.u_min with
             | some mn => decide (syr.u_base < mn)
             | none => false) = false := by
    cases h : syr.u_min with
    | none => rfl
    | some mn => simpa using not_lt.mpr (hmin mn h)
  have h2 : (match syr.u_max with
             | some mm => decide (mm < syr.u_base + volume_ul * syr.u_per_ul)
             | none => false) = true := by
    rw [hmax]
    simpa using hover
  simp only [transfer_volume, get_syringe, h1, h2]
  simp

/-- Claim C1 (counterexample): `aspirate` of 10000 µL with the 1 ml syringe
(`u_base + volume×u_per_ul = 605 > u_max = 65`) raises no calibration error
and emits its full motion sequence, contradicting the claim that all three
operations fail before sending any command. -/
theorem C1_counterexample :
    Syringe_1ml.u_max = some 65 ∧
    (65 : ℚ) < Syringe_1ml.u_base + 10000 * Syringe_1ml.u_per_ul ∧
    (aspirate (some Syringe_1ml) 10000 none (some deckDefault) (some "4")
        LABWARE_48WELL_10MM (some "A1")) =
      ⟨[Cmd.setAbsolute, mvXY (19022/100) (13296/100) 7500, mvZ 170 600,
        Cmd.setRelative, Cmd.move none none none (some 600) (some 200),
        Cmd.setAbsolute, mvZ 158 750],
       none⟩ :=
  ⟨by with_unfolding_all rfl, by norm_num [Syringe_1ml],
   by with_unfolding_all rfl⟩

theorem C1_amended_witness :
    transfer_volume (some Syringe_1ml) deckDefault "4" "A1" "4" "B3" 10000 none
        3000 200 300 200 = ⟨[], some .calibrationRange⟩ ∧
    (aspirate (some Syringe_1ml) 10000 none (some deckDefault) (some "4")
        LABWARE_48WELL_10MM (some "A1")).err = none ∧
    ((aspirate (some Syringe_1ml) 10000 none (some deckDefault) (some "4")
        LABWARE_48WELL_10MM (some "A1")).cmds.filter isMotion).length = 4 ∧
    (dispense (some Syringe_1ml) 10000 none (some deckDefault) (some "4")
        LABWARE_48WELL_10MM (some "A1")).err = none ∧
    ((dispense (some Syringe_1ml) 10000 none (some deckDefault) (some "4")
        LABWARE_48WELL_10MM (some "A1")).cmds.filter isMotion).length = 4 ∧
    Syringe_1ml.u_max = some 65 ∧
    (65 : ℚ) < Syringe_1ml.u_base + 10000 * Syringe_1ml.u_per_ul :=
  C1_amended Syringe_1ml 65 10000 deckDefault "4" "A1" "4" "B3" 3000 200 300 200
    (by with_unfolding_all rfl)
    (by
      intro mn h
      simp only [Syringe_1ml, Option.some.injEq] at h
      simp only [Syringe_1ml]
      rw [← h]
      norm_num)
    (by norm_num [Syringe_1ml])

/-- Claim C3 (amended): for any edge value other than `"left"` and
`"right"`, `drop_tip_scrape` raises the invalid-edge error, but only after
issuing the three-move approach (safe-height Z, lateral travel to the slot
center, descent to the scrape height); the lateral scrape stroke and the
final rise are not issued. -/
theorem C3_amended (deck : Deck) (sid edge : String) (slot : DeckSlot)
    (shw es : ℚ) (hs : deck.slots sid = some slot)
    (h1 : edge ≠ "left") (h2 : edge ≠ "right") :
    drop_tip_scrape deck sid edge shw es =
      ⟨[Cmd.setAbsolute, mvZ 100 600,
        mvXY (deck.origin_x + slot.x_deck) (deck.origin_y + slot.y_deck) 7500,
        mvZ 170 750],
       some .invalidEdge⟩ := by
  simp only [drop_tip_scrape, hs, Deck.deck_to_machine, LABWARE_TIPWASTE_BOX]
  rw [if_neg h1, if_neg h2]

theorem C3_amended_witness :
    drop_tip_scrape deckDefault "2" "up" 64 20 =
      ⟨[Cmd.setAbsolute, mvZ 100 600, mvXY (2341/10) 65 7500, mvZ 170 750],
       some .invalidEdge⟩ := by
  have h := C3_amended deckDefault "2" "up" ⟨"2", (2421/10), 70⟩ 64 20
    (by with_unfolding_all rfl) (by decide) (by decide)
  rw [h]
  with_unfolding_all rfl

end LHR

namespace LHR

/-- Claim C2 (amended): the §4.5 safety ordering — lateral moves only while
the commanded Z is at or above the operation's safe height, descents below
the safe height only after the XY target was commanded — holds for every
valid run of `pick_up_tip` and `transfer_volume`.  It is deliberately
violated by `drop_tip_scrape`'s lateral scrape stroke (issued at the scrape
height), and plate-mode `aspirate`/`dispense` begin lateral travel without
first commanding any Z, relying on the caller having left Z at a safe
height. -/
theorem C2_amended :
    (∀ (deck : Deck) (sid well : String) (n : ℕ),
        (pick_up_tip deck sid well n).err = none →
        safeOrdering LABWARE_TIPRACK_96.safe_z
          (pick_up_tip deck sid well n).cmds = true) ∧
    (∀ (cur : Option SyringeType) (syrName : Option String) (deck : Deck)
        (ss sw ds dw : String) (v fxy fzd fzu fu : ℚ),
        (transfer_volume cur deck ss sw ds dw v syrName fxy fzd fzu fu).err
            = none →
        safeOrdering LABWARE_48WELL_10MM.safe_z
          (transfer_volume cur deck ss sw ds dw v syrName fxy fzd fzu fu).cmds
            = true) := by
  have d1 : decide ((100 : ℚ) < 100) = false := by with_unfolding_all rfl
  have d2 : decide ((100 : ℚ) ≤ 100) = true := by with_unfolding_all rfl
  have d3 : decide ((100 : ℚ) < 170) = true := by with_unfolding_all rfl
  have d4 : decide ((100 : ℚ) < 172) = true := by with_unfolding_all rfl
  have d5 : decide ((100 : ℚ) < 176) = true := by with_unfolding_all rfl
  have e1 : decide ((158 : ℚ) < 158) = false := by with_unfolding_all rfl
  have e2 : decide ((158 : ℚ) ≤ 158) = true := by with_unfolding_all rfl
  have e3 : decide ((158 : ℚ) < 170) = true := by with_unfolding_all rfl
  have t1 : LABWARE_TIPRACK_96.tip_touch_z = some 170 := rfl
  have t2 : LABWARE_TIPRACK_96.tip_press_z = some 172 := rfl
  have t3 : LABWARE_TIPRACK_96.tip_full_z = some 176 := rfl
  have tsafe : LABWARE_TIPRACK_96.safe_z = 100 := rfl
  have psafe : LABWARE_48WELL_10MM.safe_z = 158 := rfl
  have pasp : pyOr LABWARE_48WELL_10MM.aspirate_z LABWARE_48WELL_10MM.bottom_z
      = 170 := rfl
  have pdisp : pyOr LABWARE_48WELL_10MM.dispense_z LABWARE_48WELL_10MM.bottom_z
      = 170 := rfl
  constructor
  · intro deck sid well n herr
    cases hs : deck.slots sid with
    | none => simp [pick_up_tip, hs] at herr
    | some slot =>
      cases hw : LabwareInstance.well_position_machine
          ⟨LABWARE_TIPRACK_96, slot, "tiprack_slot" ++ sid, deck⟩ well with
      | error e => simp [pick_up_tip, hs, t1, t2, t3, hw] at herr
      | ok p =>
        obtain ⟨x, y⟩ := p
        clear herr
        simp [pick_up_tip, hs, t1, t2, t3, tsafe, hw, safeOrdering,
          safeAux_setAbs, safeAux_mvZ, safeAux_mvXY, safeAux_dwellCmd,
          safeAux_tipCycles, safeAux_nil, d1, d2, d3, d4, d5]
  · intro cur syrName deck ss sw ds dw v fxy fzd fzu fu herr
    cases hg : get_syringe syrName cur with
    | error e => simp [transfer_volume, hg] at herr
    | ok syr =>
      cases h1 : (match syr.u_min with
                  | some mn => decide (syr.u_base < mn)
                  | none => false) with
      | true => simp [transfer_volume, hg, h1] at herr
      | false =>
        cases h2 : (match syr.u_max with
                    | some mm =>
                        decide (mm < syr.u_base + v * syr.u_per_ul)
                    | none => false) with
        | true => simp [transfer_volume, hg, h1, h2] at herr
        | false =>
          cases hs1 : deck.slots ss with
          | none => simp [transfer_volume, hg, h1, h2, hs1] at herr
          | some s1 =>
            cases hs2 : deck.slots ds with
            | none => simp [transfer_volume, hg, h1, h2, hs1, hs2] at herr
            | some s2 =>
              cases hw1 : LabwareInstance.well_position_machine
                  ⟨LABWARE_48WELL_10MM, s1, "plate_src_slot" ++ ss, deck⟩ sw with
              | error e =>
                simp [transfer_volume, hg, h1, h2, hs1, hs2, hw1] at herr
              | ok p1 =>
                obtain ⟨x1, y1⟩ := p1
                cases hw2 : LabwareInstance.well_position_machine
                    ⟨LABWARE_48WELL_10MM, s2, "plate_dst_slot" ++ ds, deck⟩ dw with
                | error e =>
                  simp [transfer_volume, hg, h1, h2, hs1, hs2, hw1, hw2] at herr
                | ok p2 =>
                  obtain ⟨x2, y2⟩ := p2
                  clear herr
                  simp [transfer_volume, hg, h1, h2, hs1, hs2, hw1, hw2,
                    psafe, pasp, pdisp, safeOrdering, safeAux_setAbs,
                    safeAux_mvZ, safeAux_mvXY, safeAux_mvU, safeAux_nil,
                    e1, e2, e3]

theorem C2_amended_witness :
    safeOrdering LABWARE_TIPRACK_96.safe_z
      (pick_up_tip deckDefault "1" "A1" 2).cmds = true ∧
    safeOrdering LABWARE_48WELL_10MM.safe_z
      (transfer_volume none deckDefault "4" "A1" "4" "B3" 50 (some "1ml")
        3000 200 300 200).cmds = true :=
  ⟨C2_amended.1 deckDefault "1" "A1" 2 (by with_unfolding_all rfl),
   C2_amended.2 none (some "1ml") deckDefault "4" "A1" "4" "B3" 50
     3000 200 300 200 (by with_unfolding_all rfl)⟩

end LHR

namespace LHR

/-- Claim C5: for every prior positioning mode and every delta vector,
`move_relative` emits `G91`, one combined move carrying exactly the
non-zero deltas, then `G90` — so the session ends in absolute mode — and it
does so both when the firmware acknowledges each command and when the
acknowledgement wait times out. -/
theorem C5_move_relative (m0 : Mode) (x0 y0 z0 u0 dx dy dz du : ℚ)
    (f : Option ℚ) (resp : ℕ → FwResp)
    (h : ∀ i, resp i ≠ FwResp.errorLine) :
    (move_relative_run resp dx dy dz du f).err = none ∧
    (move_relative_run resp dx dy dz du f).cmds =
      [Cmd.setRelative,
       Cmd.move (if dx = 0 then none else some dx)
                (if dy = 0 then none else some dy)
                (if dz = 0 then none else some dz)
                (if du = 0 then none else some du) f,
       Cmd.setAbsolute] ∧
    (execList ⟨m0, x0, y0, z0, u0⟩
        (move_relative_run resp dx dy dz du f).cmds).mode = Mode.absolute := by
  have hc : move_relative_run resp dx dy dz du f =
      ⟨move_relative_cmds dx dy dz du f, none⟩ := by
    simp [move_relative_run, move_relative_cmds, runCmds, h 0, h 1, h 2]
  refine ⟨by rw [hc], by rw [hc]; rfl, ?_⟩
  rw [hc]
  cases m0 <;> simp [move_relative_cmds, execList, execCmd]

theorem C5_move_relative_witness :
    (move_relative_run (fun _ => FwResp.timeout) 1 0 2 0 none).err = none ∧
    (move_relative_run (fun _ => FwResp.timeout) 1 0 2 0 none).cmds =
      [Cmd.setRelative, Cmd.move (some 1) none (some 2) none none,
       Cmd.setAbsolute] ∧
    (execList ⟨Mode.relative, 0, 0, 0, 0⟩
        (move_relative_run (fun _ => FwResp.timeout) 1 0 2 0 none).cmds).mode
      = Mode.absolute := by
  have h := C5_move_relative Mode.relative 0 0 0 0 1 0 2 0 none
    (fun _ => FwResp.timeout) (fun _ h => FwResp.noConfusion h)
  refine ⟨h.1, ?_, h.2.2⟩
  rw [h.2.1]
  with_unfolding_all rfl

/-- Claim C6: for a well name whose (stripped, uppercased) form is a row
letter followed by a decimal column number, `well_position_machine` returns
origin + slot-center + offset + pitch-scaled column/row when the derived
row and column indices are in the type's bounds, and fails with the
address-out-of-range error otherwise. -/
theorem C6_well_position (t : LabwareType) (slot : DeckSlot) (deck : Deck)
    (label well : String) (c : Char) (ds : List Char) (n : ℕ)
    (hw : (well.trim.toUpper).data = c :: ds)
    (hc : 65 ≤ c.toNat ∧ c.toNat ≤ 90)
    (hn : parseNatDigits ds = some n) :
    (((c.toNat : ℤ) - 65 < (t.rows : ℤ) ∧ 1 ≤ n ∧ (n : ℤ) ≤ (t.cols : ℤ)) →
        LabwareInstance.well_position_machine ⟨t, slot, label, deck⟩ well =
          .ok (deck.origin_x + slot.x_deck + t.offset_x
                 + (((n : ℤ) - 1 : ℤ) : ℚ) * t.pitch_x,
               deck.origin_y + slot.y_deck + t.offset_y
                 + (((c.toNat : ℤ) - 65 : ℤ) : ℚ) * t.pitch_y)) ∧
    (¬ ((c.toNat : ℤ) - 65 < (t.rows : ℤ) ∧ 1 ≤ n ∧ (n : ℤ) ≤ (t.cols : ℤ)) →
        LabwareInstance.well_position_machine ⟨t, slot, label, deck⟩ well =
          .error .addressOutOfRange) := by
  obtain ⟨hc1, hc2⟩ := hc
  constructor
  · intro hb
    simp only [LabwareInstance.well_position_machine,
      LabwareInstance.well_position_deck, LabwareInstance.well_rc, hw, hn]
    rw [if_pos (by omega), if_pos (by omega)]
    simp only [Deck.deck_to_machine, Except.ok.injEq, Prod.mk.injEq]
    constructor <;> ring
  · intro hb
    simp only [LabwareInstance.well_position_machine,
      LabwareInstance.well_position_deck, LabwareInstance.well_rc, hw, hn]
    by_cases hA : (0 ≤ (c.toNat : ℤ) - 65 ∧ (c.toNat : ℤ) - 65 < (t.rows : ℤ))
    · rw [if_pos hA, if_neg (by omega)]
    · rw [if_neg hA]

theorem C6_well_position_witness :
    LabwareInstance.well_position_machine
        ⟨LABWARE_48WELL_10MM, ⟨"4", (2421/10), 170⟩, "t", deckDefault⟩ "b3" =
      .ok ((21516/100), (14543/100)) ∧
    LabwareInstance.well_position_machine
        ⟨LABWARE_48WELL_10MM, ⟨"4", (2421/10), 170⟩, "t", deckDefault⟩ "b9" =
      .error .addressOutOfRange := by
  have h3 := C6_well_position LABWARE_48WELL_10MM ⟨"4", (2421/10), 170⟩
    deckDefault "t" "b3" 'B' ['3'] 3 (by with_unfolding_all rfl) (by decide)
    (by with_unfolding_all rfl)
  have h9 := C6_well_position LABWARE_48WELL_10MM ⟨"4", (2421/10), 170⟩
    deckDefault "t" "b9" 'B' ['9'] 9 (by with_unfolding_all rfl) (by decide)
    (by with_unfolding_all rfl)
  constructor
  · rw [h3.1 (by decide)]
    with_unfolding_all rfl
  · exact h9.2 (by decide)

end LHR

namespace LHR

theorem errorBeforeOk_cons_skip (l : String) (ls : List String)
    (he : isErrorLine l = false) (ho : isOkLine l = false) :
    ErrorBeforeOk (l :: ls) ↔ ErrorBeforeOk ls := by
  constructor
  · rintro ⟨i, hi, herr, hok⟩
    cases i with
    | zero =>
      rw [List.getElem_cons_zero] at herr
      rw [he] at herr
      cases herr
    | succ k =>
      refine ⟨k, by simpa using hi, by simpa using herr, ?_⟩
      intro x hx
      exact hok x (by simp [List.take_succ_cons, hx])
  · rintro ⟨i, hi, herr, hok⟩
    refine ⟨i + 1, by simpa using hi, by simpa using herr, ?_⟩
    intro x hx
    rw [List.take_succ_cons] at hx
    rcases List.mem_cons.mp hx with rfl | hx'
    · exact ho
    · exact hok x hx'

theorem errorBeforeOk_cons_error (l : String) (ls : List String)
    (he : isErrorLine l = true) : ErrorBeforeOk (l :: ls) := by
  refine ⟨0, by simp, by simpa using he, ?_⟩
  intro x hx
  simp at hx

theorem errorBeforeOk_cons_okLine (l : String) (ls : List String)
    (he : isErrorLine l = false) (ho : isOkLine l = true) :
    ¬ ErrorBeforeOk (l :: ls) := by
  rintro ⟨i, hi, herr, hok⟩
  cases i with
  | zero =>
    rw [List.getElem_cons_zero] at herr
    rw [he] at herr
    cases herr
  | succ k =>
    have h0 : isOkLine l = false := hok l (by simp [List.take_succ_cons])
    rw [ho] at h0
    cases h0

end LHR

namespace LHR

theorem drain_no_marker (lines : List String)
    (h : ∀ l ∈ lines, isErrorLine l = false ∧ isOkLine l = false) :
    drain_until_ok_or_timeout lines = .timedOutWarned := by
  induction lines with
  | nil => rfl
  | cons l ls ih =>
    have hl := h l (by simp)
    have hrec := ih fun x hx => h x (by simp [hx])
    by_cases hline : l = ""
    · simp [drain_until_ok_or_timeout, hline, hrec]
    · simp [drain_until_ok_or_timeout, hline, hl.1, hl.2, hrec]

theorem drain_fwError_iff (lines : List String) :
    (∃ m, drain_until_ok_or_timeout lines = .fwError m) ↔ ErrorBeforeOk lines := by
  induction lines with
  | nil =>
    constructor
    · rintro ⟨m, hm⟩
      cases hm
    · rintro ⟨i, hi, -⟩
      simp at hi
  | cons l ls ih =>
    by_cases hline : l = ""
    · subst hline
      have he : isErrorLine "" = false := by with_unfolding_all rfl
      have ho : isOkLine "" = false := by with_unfolding_all rfl
      rw [show drain_until_ok_or_timeout ("" :: ls) =
            drain_until_ok_or_timeout ls from by
          simp [drain_until_ok_or_timeout]]
      rw [errorBeforeOk_cons_skip "" ls he ho]
      exact ih
    · by_cases herr : isErrorLine l = true
      · rw [show drain_until_ok_or_timeout (l :: ls) = .fwError l from by
            simp [drain_until_ok_or_timeout, hline, herr]]
        exact iff_of_true ⟨l, rfl⟩ (errorBeforeOk_cons_error l ls herr)
      · have herr' : isErrorLine l = false := by
          simpa using herr
        by_cases hok : isOkLine l = true
        · rw [show drain_until_ok_or_timeout (l :: ls) = .okAck from by
              simp [drain_until_ok_or_timeout, hline, herr', hok]]
          refine iff_of_false ?_ (errorBeforeOk_cons_okLine l ls herr' hok)
          rintro ⟨m, hm⟩
          cases hm
        · have hok' : isOkLine l = false := by
            simpa using hok
          rw [show drain_until_ok_or_timeout (l :: ls) =
                drain_until_ok_or_timeout ls from by
              simp [drain_until_ok_or_timeout, hline, herr', hok']]
          rw [errorBeforeOk_cons_skip l ls herr' hok']
          exact ih

/-- Claim C7: with acknowledgement waiting enabled, `send_gcode` raises the
firmware error exactly when a line carrying the error marker is read before
a success line, and when only non-marker lines arrive until the timeout it
returns normally (a warning, never an exception). -/
theorem C7_send_protocol (lines : List String) :
    ((∃ m, send_gcode_result lines = .error m) ↔ ErrorBeforeOk lines) ∧
    ((∀ l ∈ lines, isErrorLine l = false ∧ isOkLine l = false) →
      send_gcode_result lines = .ok ()) := by
  constructor
  · rw [← drain_fwError_iff]
    constructor
    · rintro ⟨m, hm⟩
      unfold send_gcode_result at hm
      cases hd : drain_until_ok_or_timeout lines with
      | fwError x => exact ⟨x, rfl⟩
      | okAck => rw [hd] at hm; cases hm
      | timedOutWarned => rw [hd] at hm; cases hm
    · rintro ⟨m, hm⟩
      exact ⟨"Firmware error: " ++ m, by simp [send_gcode_result, hm]⟩
  · intro h
    simp [send_gcode_result, drain_no_marker lines h]

theorem C7_send_protocol_witness :
    (∃ m, send_gcode_result ["busy", "Error: lost steps"] = .error m) ∧
    send_gcode_result ["busy", "wait"] = .ok () := by
  constructor
  · exact (C7_send_protocol ["busy", "Error: lost steps"]).1.mpr
      ⟨1, by decide, by with_unfolding_all rfl, by
        intro x hx
        simp at hx
        subst hx
        with_unfolding_all rfl⟩
  · exact (C7_send_protocol ["busy", "wait"]).2 (by
      intro x hx
      simp at hx
      rcases hx with rfl | rfl
      · exact ⟨by with_unfolding_all rfl, by with_unfolding_all rfl⟩
      · exact ⟨by with_unfolding_all rfl, by with_unfolding_all rfl⟩)

end LHR

namespace LHR

/-- Claim C8 (amended): the working heights resolved by `aspirate`,
`dispense` and `transfer_volume` follow Python's `a or b` on floats: the
height equals `aspirate_z` (resp. `dispense_z`) when that field is set *and
non-zero*, and falls back to `bottom_z` when the field is unset **or set to
the falsy value `0.0`**; addressed-plate `aspirate`/`dispense` descend to
exactly this resolved height, and the 48-well plate used by
`transfer_volume` has both fields unset, so it descends to `bottom_z`. -/
theorem C8_amended (t : LabwareType) :
    (∀ z : ℚ, t.aspirate_z = some z → z ≠ 0 →
        pyOr t.aspirate_z t.bottom_z = z) ∧
    (t.aspirate_z = none → pyOr t.aspirate_z t.bottom_z = t.bottom_z) ∧
    (t.aspirate_z = some 0 → pyOr t.aspirate_z t.bottom_z = t.bottom_z) ∧
    (∀ z : ℚ, t.dispense_z = some z → z ≠ 0 →
        pyOr t.dispense_z t.bottom_z = z) ∧
    (t.dispense_z = none → pyOr t.dispense_z t.bottom_z = t.bottom_z) ∧
    (t.dispense_z = some 0 → pyOr t.dispense_z t.bottom_z = t.bottom_z) ∧
    pyOr LABWARE_48WELL_10MM.aspirate_z LABWARE_48WELL_10MM.bottom_z
      = LABWARE_48WELL_10MM.bottom_z ∧
    pyOr LABWARE_48WELL_10MM.dispense_z LABWARE_48WELL_10MM.bottom_z
      = LABWARE_48WELL_10MM.bottom_z ∧
    (∀ (syr : SyringeType) (dk : Deck) (sid w : String) (slot : DeckSlot)
        (v x y : ℚ),
        dk.slots sid = some slot →
        t ≠ LABWARE_BEAKER_1WELL →
        LabwareInstance.well_position_machine
            ⟨t, slot, "asp_plate_slot" ++ sid, dk⟩ w = .ok (x, y) →
        aspirate (some syr) v none (some dk) (some sid) t (some w) none none
            7500 600 750 200 =
          ⟨[Cmd.setAbsolute, mvXY x y 7500,
            mvZ (pyOr t.aspirate_z t.bottom_z) 600]
             ++ move_relative_cmds 0 0 0 (v * syr.u_per_ul) (some 200)
             ++ [mvZ t.safe_z 750], none⟩) ∧
    (∀ (syr : SyringeType) (dk : Deck) (sid w : String) (slot : DeckSlot)
        (v x y : ℚ),
        dk.slots sid = some slot →
        t ≠ LABWARE_BEAKER_1WELL →
        LabwareInstance.well_position_machine
            ⟨t, slot, "disp_plate_slot" ++ sid, dk⟩ w = .ok (x, y) →
        dispense (some syr) v none (some dk) (some sid) t (some w) none none
            7500 600 750 200 =
          ⟨[Cmd.setAbsolute, mvXY x y 7500,
            mvZ (pyOr t.dispense_z t.bottom_z) 600]
             ++ move_relative_cmds 0 0 0 (-(v * syr.u_per_ul)) (some 200)
             ++ [mvZ t.safe_z 750], none⟩) := by
  refine ⟨?_, ?_, ?_, ?_, ?_, ?_, rfl, rfl, ?_, ?_⟩
  · intro z hz hz0
    rw [hz, pyOr]
    simp [hz0]
  · intro hz
    rw [hz, pyOr]
  · intro hz
    rw [hz, pyOr]
    simp
  · intro z hz hz0
    rw [hz, pyOr]
    simp [hz0]
  · intro hz
    rw [hz, pyOr]
  · intro hz
    rw [hz, pyOr]
    simp
  · intro syr dk sid w slot v x y hslot hneq hwp
    simp only [aspirate, get_syringe, hslot, hwp]
    rw [if_neg hneq]
  · intro syr dk sid w slot v x y hslot hneq hwp
    simp only [dispense, get_syringe, hslot, hwp]
    rw [if_neg hneq]

/-- Claim C8 (counterexample): `LT_ASPZERO` has its aspirate height *set*
(to `0.0`); the claim then demands that `aspirate` work at height `0`, but
the trace descends to `bottom_z = 170` — Python's `or` treats `0.0` as
unset. -/
theorem C8_counterexample :
    LT_ASPZERO.aspirate_z = some 0 ∧
    (aspirate (some Syringe_1ml) 50 none (some deckDefault) (some "4")
        LT_ASPZERO (some "A1")) =
      ⟨[Cmd.setAbsolute, mvXY (2341/10) 165 7500, mvZ 170 600,
        Cmd.setRelative, Cmd.move none none none (some 3) (some 200),
        Cmd.setAbsolute, mvZ 100 750],
       none⟩ ∧
    (170 : ℚ) ≠ 0 :=
  ⟨rfl, by with_unfolding_all rfl, by norm_num⟩

theorem C8_amended_witness :
    pyOr LABWARE_48WELL_10MM.aspirate_z LABWARE_48WELL_10MM.bottom_z
      = LABWARE_48WELL_10MM.bottom_z ∧
    aspirate (some Syringe_1ml) 50 none (some deckDefault) (some "4")
        LABWARE_48WELL_10MM (some "A1") none none 7500 600 750 200 =
      ⟨[Cmd.setAbsolute, mvXY (19022/100) (13296/100) 7500,
        mvZ (pyOr LABWARE_48WELL_10MM.aspirate_z LABWARE_48WELL_10MM.bottom_z)
          600]
         ++ move_relative_cmds 0 0 0 (50 * Syringe_1ml.u_per_ul) (some 200)
         ++ [mvZ LABWARE_48WELL_10MM.safe_z 750], none⟩ := by
  have h := C8_amended LABWARE_48WELL_10MM
  refine ⟨h.2.2.2.2.2.2.1, ?_⟩
  exact h.2.2.2.2.2.2.2.2.1 Syringe_1ml deckDefault "4" "A1"
    ⟨"4", (2421/10), 170⟩ 50 (19022/100) (13296/100)
    (by with_unfolding_all rfl)
    (fun hx => absurd (congrArg LabwareType.name hx) (by decide))
    (by with_unfolding_all rfl)

/-- Claim C9: `home_all` emits a homing command covering every axis and then
exactly one more motion command, a plunger move to the fixed 5 mm safety
clearance; since homing zeroes the plunger, its effect is a lift of the
plunger by exactly 5 from the homed position — in either positioning mode —
and no other axis moves. -/
theorem C9_home_all (s : MachState) :
    home_all_cmds =
      [Cmd.home [Axis.X, Axis.Y, Axis.Z, Axis.U],
       Cmd.move none none none (some 5) (some 200)] ∧
    (home_all_cmds.filter isMotion).length = 2 ∧
    (execList s home_all_cmds).u
        = (execCmd s (Cmd.home [Axis.X, Axis.Y, Axis.Z, Axis.U])).u + 5 ∧
    (execList s home_all_cmds).x
        = (execCmd s (Cmd.home [Axis.X, Axis.Y, Axis.Z, Axis.U])).x ∧
    (execList s home_all_cmds).y
        = (execCmd s (Cmd.home [Axis.X, Axis.Y, Axis.Z, Axis.U])).y ∧
    (execList s home_all_cmds).z
        = (execCmd s (Cmd.home [Axis.X, Axis.Y, Axis.Z, Axis.U])).z ∧
    (execList s home_all_cmds).mode = s.mode := by
  obtain ⟨m, x, y, z, u⟩ := s
  cases m <;>
    refine ⟨rfl, rfl, ?_, ?_, ?_, ?_, rfl⟩ <;>
      simp [execList, execCmd, home_all_cmds]

/-- Claim C10: an `aspirate`/`dispense` protocol step whose parameters carry
a slot but no well runs in reservoir mode — the robot call is made with the
canonical well `"A1"` and the single-well beaker geometry, not the default
48-well plate; with both slot and well present the default plate geometry
is used. -/
theorem C10_reservoir_dispatch (d : String) (p : StepParams) (v : ℚ)
    (s : String) (hv : p.volume_ul = some v) (hs : p.slot = some s) :
    (p.well = none →
        run_single_step d "aspirate" p =
          .ok (.aspirateCall v (p.syringe.getD d) s "A1" LABWARE_BEAKER_1WELL) ∧
        run_single_step d "dispense" p =
          .ok (.dispenseCall v (p.syringe.getD d) s "A1" LABWARE_BEAKER_1WELL)) ∧
    (∀ w, p.well = some w →
        run_single_step d "aspirate" p =
          .ok (.aspirateCall v (p.syringe.getD d) s w LABWARE_48WELL_10MM) ∧
        run_single_step d "dispense" p =
          .ok (.dispenseCall v (p.syringe.getD d) s w LABWARE_48WELL_10MM)) ∧
    LABWARE_BEAKER_1WELL ≠ LABWARE_48WELL_10MM := by
  refine ⟨?_, ?_, fun hx => absurd (congrArg LabwareType.name hx) (by decide)⟩
  · intro hw
    constructor <;> simp [run_single_step, hv, hs, hw]
  · intro w hw
    constructor <;> simp [run_single_step, hv, hs, hw]

theorem C10_reservoir_dispatch_witness :
    run_single_step "1ml" "aspirate"
        { slot := some "4", volume_ul := some 50 } =
      .ok (.aspirateCall 50 "1ml" "4" "A1" LABWARE_BEAKER_1WELL) ∧
    run_single_step "1ml" "dispense"
        { slot := some "4", volume_ul := some 50 } =
      .ok (.dispenseCall 50 "1ml" "4" "A1" LABWARE_BEAKER_1WELL) :=
  (C10_reservoir_dispatch "1ml" { slot := some "4", volume_ul := some 50 }
      50 "4" rfl rfl).1 rfl

end LHR
